import Mathlib

/-!
Verification of the package-test orchestrator of `run.py` (plugincompat).

The functions of `run.py` that the specification's claims concern are embedded
shallowly: every external effect (HTTP calls, the subprocess, the clock, the
`distlib` compatibility oracle) is a parameter of the corresponding Lean
function, and raised Python exceptions become `Except.error` values.
-/

set_option autoImplicit false
set_option linter.unusedVariables false

namespace Plugincompat

/-- Python's `str.endswith`, on the character sequences of the strings. -/
def strEndsWith (s suffix : String) : Bool :=
  List.isSuffixOf suffix.data s.data

/-- Python's code-point comparison of two characters. -/
def charLt (a b : Char) : Bool := a.toNat < b.toNat

/-- Lexicographic code-point order on character sequences. -/
def charListLt : List Char → List Char → Bool
  | _, [] => false
  | [], _ :: _ => true
  | a :: as, b :: bs =>
    if charLt a b then true
    else if charLt b a then false
    else charListLt as bs

/-- Python's `<` on strings: lexicographic by code point. -/
def pyStrLt (a b : String) : Bool := charListLt a.data b.data

/-- Stable insertion of `a` in front of the first element of an already
sorted list that `a` may precede. -/
def insertLe {α : Type} (le : α → α → Bool) (a : α) : List α → List α
  | [] => [a]
  | b :: l => if le a b then a :: b :: l else b :: insertLe le a l

/-- Python's builtin `sorted` on a total preorder `le`: a stable sort
(insertion sort here; `sorted` in CPython is timsort, also stable, with the
same result on a total preorder). -/
def pysorted {α : Type} (le : α → α → Bool) : List α → List α
  | [] => []
  | a :: l => insertLe le a (pysorted le l)

/-- One release artifact entry as returned by the package index
(`client.release_urls(name, version)` in `run.py`): a dict with at least the
keys `packagetype`, `url` and `filename`. -/
structure ReleaseUrl where
  packagetype : String
  url : String
  filename : String
deriving Repr, DecidableEq

/-- Behaviour of `distlib.wheel.is_compatible` on one filename: either a
boolean, or a raised `distlib.DistlibException` (carried as the error
string). -/
def CompatCheck : Type := String → Except String Bool

/-- The boolean the `bdist_wheel` loop of `download_package` acts on:
`is_compatible` returning `False` and `is_compatible` raising
`DistlibException` both make the loop `continue` past the wheel. -/
def wheelOk (is_compatible : CompatCheck) (d : ReleaseUrl) : Bool :=
  match is_compatible d.filename with
  | Except.ok c => c
  | Except.error _ => false

/-- `download_package` from `run.py`, selection and download: group the
release urls by `packagetype` (the `filter`s preserve the index order, as the
`defaultdict(list)` grouping does), take the first sdist if any, otherwise the
first `bdist_wheel` accepted by `is_compatible`; the chosen filename (if any)
is returned together with the list of urls actually fetched by
`session.get`. -/
def download_package (is_compatible : CompatCheck) (urls : List ReleaseUrl) :
    Option String × List String :=
  let sdists := urls.filter (fun d => d.packagetype == "sdist")
  let bdists := urls.filter (fun d => d.packagetype == "bdist_wheel")
  let chosen : Option ReleaseUrl :=
    match sdists with
    | sdist :: _ => some sdist
    | [] => bdists.find? (wheelOk is_compatible)
  match chosen with
  | some d => (some d.filename, [d.url])
  | none => (none, [])

/-- The extractor table of `extract` in `run.py`, in the insertion order of
the Python dict: `.zip`, `.tar.gz`, `.tgz`. -/
def extractors : List String := [".zip", ".tar.gz", ".tgz"]

/-- `extract` from `run.py`: dispatch on the filename suffix; on a match the
archive is extracted into the current directory and the basename minus the
extension is returned; otherwise `Exception("could not extract %s" % basename)`
is raised, modelled as `Except.error` carrying the exception message. -/
def extract (basename : String) : Except String String :=
  match extractors.find? (fun ext => strEndsWith basename ext) with
  | some ext => Except.ok (basename.dropRight ext.length)
  | none => Except.error ("could not extract " ++ basename)

/-- The `PackageResult` namedtuple from `run.py`. `elapsed` (a wall-clock
float in the source) is abstracted to a natural number supplied by the
environment. -/
structure PackageResult where
  name : String
  version : String
  status_code : Int
  status : String
  output : String
  description : String
  elapsed : Nat
deriving Repr, DecidableEq

/-- Outcome of the cache-check `session.get` inside `run_package`: an HTTP
response carrying a status code, or a raised exception. -/
inductive CacheCheck where
  | response (status_code : Nat)
  | exc
deriving Repr, DecidableEq

/-- Observable outcome of the test-execution phase of `run_package`:
`run_tox` returned `(status_code, output)`, or some exception whose formatted
traceback is `trace` was raised inside the `try`, or the five-minute
`trio.move_on_after` scope cancelled the run. -/
inductive ToxOutcome where
  | ok (status_code : Int) (output : String)
  | exc (trace : String)
  | timeout
deriving Repr, DecidableEq

/-- Python truthiness of an `Optional[str]`: `None` and `""` are falsy. -/
def truthy : Option String → Bool
  | none => false
  | some s => s ≠ ""

/-- The external environment one `run_package` call runs against: the
configured storage url (`os.environ.get("PLUGINCOMPAT_SITE")`), the
cache-check response, the release urls of the package, the wheel
compatibility oracle, the tox outcome, and the clock (`elapsed` for the
`PackageResult` field, `elapsedStr` for the `"%.1f"` rendering in the output
footer). -/
structure RunEnv where
  plugincompat_site : Option String
  cacheCheck : CacheCheck
  releaseUrls : List ReleaseUrl
  is_compatible : CompatCheck
  toxOutcome : ToxOutcome
  elapsed : Nat
  elapsedStr : String

/-- Which pipeline steps a `run_package` call actually performed: `fetched`
is the `download_package` call, `extracted` the `extract` call, `tested` the
tox phase. -/
structure JobEffects where
  fetched : Bool
  extracted : Bool
  tested : Bool
deriving Repr, DecidableEq

/-- The `status_code` half of the pair left by the `try`/`except`/timeout
wrapper around `run_tox` inside `run_package`: the tox exit code when
`run_tox` returned, `1` when an exception was caught, `1` when the
`trio.move_on_after(5 * 60)` scope cancelled the run. -/
def toxStatusCode : ToxOutcome → Int
  | ToxOutcome.ok status_code _ => status_code
  | ToxOutcome.exc _ => 1
  | ToxOutcome.timeout => 1

/-- The `output` half of the pair left by the `try`/`except`/timeout wrapper
around `run_tox` inside `run_package`: the tox output when `run_tox`
returned, `"traceback:\n"` plus the formatted traceback when an exception was
caught, `"tox run timed out"` when the scope cancelled the run. -/
def toxRawOutput : ToxOutcome → String
  | ToxOutcome.ok _ output => output
  | ToxOutcome.exc trace => "traceback:\n" ++ trace
  | ToxOutcome.timeout => "tox run timed out"

/-- The cache-check of `run_package`: with a truthy `PLUGINCOMPAT_SITE`
configured, `run_package` performs a GET and skips the package exactly when
the response status is 200; a raised exception is swallowed (`except
Exception: pass`) and counts as a miss, as does any non-200 response. -/
def cache_hit (env : RunEnv) : Bool :=
  if truthy env.plugincompat_site then
    match env.cacheCheck with
    | CacheCheck.response status_code => status_code == 200
    | CacheCheck.exc => false
  else false

/-- The target/mode selection of `run_package` on the downloaded basename:
a `.whl` file is kept as-is (bdist mode, no extraction), anything else goes
through `extract` (whose exception propagates). The boolean records whether
`extract` ran. -/
def wheel_or_extract (basename : String) : Except String (String × Bool) :=
  if strEndsWith basename ".whl" then Except.ok (basename, false)
  else (extract basename).map (fun target => (target, true))

/-- `run_package` from `run.py`: cache check (any exception swallowed), fetch,
extract or wheel layout, tox run under the timeout wrapper, classification,
elapsed-time footer. The one exception it does not catch — the one `extract`
raises — propagates as `Except.error`. -/
def run_package (env : RunEnv) (tox_env pytest_version name version description : String) :
    Except String (PackageResult × JobEffects) :=
  if cache_hit env then
    Except.ok (⟨name, version, 0, "SKIPPED", "Skipped", description, env.elapsed⟩,
      ⟨false, false, false⟩)
  else
    match (download_package env.is_compatible env.releaseUrls).1 with
    | none =>
      Except.ok (⟨name, version, 1, "NO DIST",
        "No source or compatible distribution found", description, env.elapsed⟩,
        ⟨true, false, false⟩)
    | some basename =>
      match wheel_or_extract basename with
      | Except.error e => Except.error e
      | Except.ok (_target, extracted) =>
        let status_code := toxStatusCode env.toxOutcome
        let output := toxRawOutput env.toxOutcome ++ "\n\nTime: " ++ env.elapsedStr ++ " seconds"
        let status := if status_code == 0 then "PASSED" else "FAILED"
        Except.ok (⟨name, version, status_code, status, output, description, env.elapsed⟩,
          ⟨true, extracted, true⟩)

/-- The `ResultsPoster` attrs class from `run.py`; the `asks` session is
external and not part of the state the claims concern. -/
structure ResultsPoster where
  batch_size : Nat
  tox_env : String
  pytest_version : String
  secret : Option String
  package_results : List PackageResult
  total_posted : Nat
deriving Repr, DecidableEq

/-- One JSON record of the `results` list built by `ResultsPoster.post_all`. -/
structure PostRecord where
  name : String
  version : String
  env : String
  pytest : String
  status : String
  output : String
  description : String
deriving Repr, DecidableEq

/-- Python tuple comparison on `PackageResult` namedtuples, as invoked by
`sorted(self._package_results)`: lexicographic over the fields in declaration
order. -/
def resultLe (a b : PackageResult) : Bool :=
  if a.name ≠ b.name then pyStrLt a.name b.name
  else if a.version ≠ b.version then pyStrLt a.version b.version
  else if a.status_code ≠ b.status_code then decide (a.status_code < b.status_code)
  else if a.status ≠ b.status then pyStrLt a.status b.status
  else if a.output ≠ b.output then pyStrLt a.output b.output
  else if a.description ≠ b.description then pyStrLt a.description b.description
  else decide (a.elapsed ≤ b.elapsed)

/-- The record `post_all` builds for one `PackageResult`. -/
def buildRecord (rp : ResultsPoster) (package_result : PackageResult) : PostRecord :=
  ⟨package_result.name, package_result.version, rp.tox_env, rp.pytest_version,
    if package_result.status_code == 0 then "ok" else "fail",
    package_result.output, package_result.description⟩

/-- What one `post_all` call did: the poster state afterwards, the HTTP POST
performed if any (the secret together with the records, as in the JSON body),
whether `raise_for_status` raised, and the line printed. -/
structure PostAllResult where
  poster : ResultsPoster
  netPost : Option (String × List PostRecord)
  raised : Bool
  printed : String
deriving Repr, DecidableEq

/-- `ResultsPoster.post_all`: build the records from the sorted pending list,
clear the pending list, then — when a truthy secret is configured — POST them,
raising (`raise_for_status`) on a non-success response and otherwise bumping
`_total_posted` and printing; with no secret, print that the batch was not
sent, with no network call. `postOk` is the external fact of whether the
storage service answered the POST with a success status. -/
def post_all (rp : ResultsPoster) (postOk : Bool) : PostAllResult :=
  let results := (pysorted resultLe rp.package_results).map (buildRecord rp)
  let cleared : ResultsPoster := { rp with package_results := [] }
  if truthy rp.secret then
    if postOk then
      { poster := { cleared with total_posted := cleared.total_posted + results.length },
        netPost := some (rp.secret.getD "", results), raised := false,
        printed := "Batch of " ++ toString results.length ++ " posted" }
    else
      { poster := cleared, netPost := some (rp.secret.getD "", results), raised := true,
        printed := "" }
  else
    { poster := cleared, netPost := none, raised := false,
      printed := "Skipping posting batch of " ++ toString results.length ++
        " because secret is not available" }

/-- `ResultsPoster.maybe_post_batch`: ignore SKIPPED results, append the rest
to the pending list, flush via `post_all` once the pending list has reached
`batch_size`. Returns the poster state afterwards and the `post_all` outcome
when a flush happened. -/
def maybe_post_batch (rp : ResultsPoster) (postOk : Bool) (package_result : PackageResult) :
    ResultsPoster × Option PostAllResult :=
  if package_result.status == "SKIPPED" then
    (rp, none)
  else
    let rp1 := { rp with package_results := rp.package_results ++ [package_result] }
    if rp1.package_results.length ≥ rp.batch_size then
      let flushed := post_all rp1 postOk
      (flushed.poster, some flushed)
    else
      (rp1, none)

/-! ### Concrete instances used to instantiate the theorems -/

/-- An environment with no storage url, one sdist, and a passing tox run. -/
def envPassed : RunEnv :=
  ⟨none, CacheCheck.exc, [⟨"sdist", "u", "a.tar.gz"⟩], fun _ => Except.ok true,
    ToxOutcome.ok 0 "out", 1, "1.0"⟩

/-- An environment whose tox run hits the five-minute timeout. -/
def envTimeout : RunEnv :=
  ⟨none, CacheCheck.exc, [⟨"sdist", "u", "a.tar.gz"⟩], fun _ => Except.ok true,
    ToxOutcome.timeout, 2, "300.0"⟩

/-- An environment whose storage service already has a result (HTTP 200). -/
def envCached : RunEnv :=
  ⟨some "http://x", CacheCheck.response 200, [], fun _ => Except.ok true,
    ToxOutcome.timeout, 0, "0.0"⟩

/-- An environment whose package index offers no artifact at all. -/
def envNoDist : RunEnv :=
  ⟨none, CacheCheck.exc, [], fun _ => Except.ok false, ToxOutcome.timeout, 3, "0.1"⟩

/-- First outcome of the batch_size=2 reporting scenario. -/
def rA : PackageResult := ⟨"a", "1", 0, "PASSED", "oa", "da", 5⟩

/-- Second outcome of the batch_size=2 reporting scenario. -/
def rB : PackageResult := ⟨"b", "1", 1, "FAILED", "ob", "db", 6⟩

/-- Third outcome of the batch_size=2 reporting scenario. -/
def rC : PackageResult := ⟨"c", "1", 0, "PASSED", "oc", "dc", 7⟩

/-- A SKIPPED outcome, as produced by the cache-hit path. -/
def rSkipped : PackageResult := ⟨"s", "1", 0, "SKIPPED", "Skipped", "ds", 1⟩

/-- A fresh poster with `batch_size` 2 and a configured secret. -/
def scenarioPoster : ResultsPoster := ⟨2, "py38", "6.0", some "sec", [], 0⟩

/-! ### Helper lemmas -/

theorem head?_filter {α : Type} (p : α → Bool) (l : List α) :
    (l.filter p).head? = l.find? p := by
  induction l with
  | nil => rfl
  | cons a l ih =>
    by_cases h : p a <;> simp [List.filter_cons, List.find?_cons, h, ih]

theorem find?_filter {α : Type} (p q : α → Bool) (l : List α) :
    (l.filter p).find? q = l.find? (fun a => p a && q a) := by
  induction l with
  | nil => rfl
  | cons a l ih =>
    by_cases h : p a <;> by_cases hq : q a <;>
      simp [List.filter_cons, List.find?_cons, h, hq, ih]

theorem length_insertLe {α : Type} (le : α → α → Bool) (a : α) (l : List α) :
    (insertLe le a l).length = l.length + 1 := by
  induction l with
  | nil => rfl
  | cons b l ih =>
    simp only [insertLe]
    split <;> simp [ih]

theorem length_pysorted {α : Type} (le : α → α → Bool) (l : List α) :
    (pysorted le l).length = l.length := by
  induction l with
  | nil => rfl
  | cons a l ih => simp [pysorted, length_insertLe, ih]

/-- Case-split form of `download_package`: the selected artifact is the first
sdist of the url list if any, else the first wheel accepted by `wheelOk`. -/
theorem download_package_eq (is_compatible : CompatCheck) (urls : List ReleaseUrl) :
    download_package is_compatible urls =
      match (match urls.find? (fun d => d.packagetype == "sdist") with
        | some s => some s
        | none =>
            urls.find? (fun d => d.packagetype == "bdist_wheel" && wheelOk is_compatible d)) with
      | some d => (some d.filename, [d.url])
      | none => (none, []) := by
  simp only [download_package]
  cases hf : urls.filter (fun d => d.packagetype == "sdist") with
  | nil =>
    have hs : urls.find? (fun d => d.packagetype == "sdist") = none := by
      rw [← head?_filter, hf]; rfl
    rw [hs, find?_filter]
  | cons s t =>
    have hs : urls.find? (fun d => d.packagetype == "sdist") = some s := by
      rw [← head?_filter, hf]; rfl
    rw [hs]

/-! ### Claims -/

/-- C3: `download_package` selects the first source distribution if any
exists; otherwise the first binary wheel accepted by `is_compatible`, where a
`DistlibException` from `is_compatible` counts as "not compatible" rather
than propagating; otherwise it selects nothing and downloads no file. -/
theorem download_package_selection (is_compatible : CompatCheck) (urls : List ReleaseUrl) :
    (∀ s, urls.find? (fun d => d.packagetype == "sdist") = some s →
      download_package is_compatible urls = (some s.filename, [s.url]))
    ∧ (urls.find? (fun d => d.packagetype == "sdist") = none →
      ∀ b, urls.find? (fun d => d.packagetype == "bdist_wheel" && wheelOk is_compatible d)
          = some b →
        download_package is_compatible urls = (some b.filename, [b.url]))
    ∧ (urls.find? (fun d => d.packagetype == "sdist") = none →
      urls.find? (fun d => d.packagetype == "bdist_wheel" && wheelOk is_compatible d) = none →
        download_package is_compatible urls = (none, []))
    ∧ (∀ d e, is_compatible d.filename = Except.error e →
        wheelOk is_compatible d = false) := by
  refine ⟨?_, ?_, ?_, ?_⟩
  · intro s hs
    rw [download_package_eq, hs]
  · intro hs b hb
    rw [download_package_eq, hs, hb]
  · intro hs hb
    rw [download_package_eq, hs, hb]
  · intro d e he
    simp [wheelOk, he]

/-- C3 witness: on a concrete url list whose first sdist is `a.tar.gz`, the
first sdist is chosen and downloaded. -/
theorem download_package_selection_witness :
    download_package (fun _ => Except.ok true)
        [⟨"bdist_wheel", "u1", "a.whl"⟩, ⟨"sdist", "u2", "a.tar.gz"⟩,
          ⟨"sdist", "u3", "b.tar.gz"⟩]
      = (some "a.tar.gz", ["u2"]) :=
  (download_package_selection (fun _ => Except.ok true) _).1 ⟨"sdist", "u2", "a.tar.gz"⟩
    (by decide)

/-- C7: for every filename not ending in a recognized archive suffix
(`.zip`, `.tar.gz`, `.tgz`), `extract` raises the unsupported-archive-format
exception, whose message references the filename, instead of returning a
path. -/
theorem extract_unsupported (basename : String)
    (h1 : strEndsWith basename ".zip" = false)
    (h2 : strEndsWith basename ".tar.gz" = false)
    (h3 : strEndsWith basename ".tgz" = false) :
    extract basename = Except.error ("could not extract " ++ basename) := by
  simp [extract, extractors, List.find?, h1, h2, h3]

/-- C7 witness: `extract "plugin.dat"` raises, with the filename in the
message. -/
theorem extract_unsupported_witness :
    extract "plugin.dat" = Except.error "could not extract plugin.dat" :=
  extract_unsupported "plugin.dat" (by decide) (by decide) (by decide)

/-- C5: with a (truthy) publishing credential configured, `post_all` POSTs
the batch together with the credential; on a non-success response it raises
and leaves `total_posted` unchanged, on success it leaves `raised` unset and
increments `total_posted` by the number of results posted (the size of the
pending batch). -/
theorem post_all_with_secret (rp : ResultsPoster) (postOk : Bool)
    (h : truthy rp.secret = true) :
    (post_all rp postOk).netPost =
      some (rp.secret.getD "", (pysorted resultLe rp.package_results).map (buildRecord rp))
    ∧ (postOk = false → (post_all rp postOk).raised = true
        ∧ (post_all rp postOk).poster.total_posted = rp.total_posted)
    ∧ (postOk = true → (post_all rp postOk).raised = false
        ∧ (post_all rp postOk).poster.total_posted
            = rp.total_posted + rp.package_results.length) := by
  cases postOk <;>
    simp [post_all, h, List.length_map, length_pysorted]

/-- C5 witness: a concrete successful flush with the secret `"s"` posts the
batch and bumps `total_posted` by the batch size. -/
theorem post_all_with_secret_witness :
    (post_all ⟨1, "e", "p", some "s", [⟨"a", "1", 0, "PASSED", "o", "d", 3⟩], 2⟩ true).netPost
        = some ("s", [⟨"a", "1", "e", "p", "ok", "o", "d"⟩])
    ∧ (post_all ⟨1, "e", "p", some "s", [⟨"a", "1", 0, "PASSED", "o", "d", 3⟩], 2⟩
        true).poster.total_posted = 3 :=
  ⟨(post_all_with_secret ⟨1, "e", "p", some "s", [⟨"a", "1", 0, "PASSED", "o", "d", 3⟩], 2⟩
      true rfl).1,
    ((post_all_with_secret ⟨1, "e", "p", some "s", [⟨"a", "1", 0, "PASSED", "o", "d", 3⟩], 2⟩
      true rfl).2.2 rfl).2⟩

/-- C9: with no (truthy) publishing credential, `post_all` makes no network
call, prints the batch-not-sent message, clears the pending list, leaves
`total_posted` unchanged, and raises nothing. -/
theorem post_all_without_secret (rp : ResultsPoster) (postOk : Bool)
    (h : truthy rp.secret = false) :
    (post_all rp postOk).netPost = none
    ∧ (post_all rp postOk).printed =
        "Skipping posting batch of " ++ toString rp.package_results.length ++
          " because secret is not available"
    ∧ (post_all rp postOk).poster.package_results = []
    ∧ (post_all rp postOk).poster.total_posted = rp.total_posted
    ∧ (post_all rp postOk).raised = false := by
  simp [post_all, h, List.length_map, length_pysorted]

/-- C9 witness: a concrete flush of one pending result with no secret makes
no POST, prints the message, clears the batch and keeps `total_posted`. -/
theorem post_all_without_secret_witness :
    (post_all ⟨3, "e", "p", none, [⟨"a", "1", 0, "PASSED", "o", "d", 3⟩], 7⟩ true).netPost = none
    ∧ (post_all ⟨3, "e", "p", none, [⟨"a", "1", 0, "PASSED", "o", "d", 3⟩], 7⟩ true).printed =
        "Skipping posting batch of 1 because secret is not available"
    ∧ (post_all ⟨3, "e", "p", none, [⟨"a", "1", 0, "PASSED", "o", "d", 3⟩], 7⟩
        true).poster.package_results = []
    ∧ (post_all ⟨3, "e", "p", none, [⟨"a", "1", 0, "PASSED", "o", "d", 3⟩], 7⟩
        true).poster.total_posted = 7
    ∧ (post_all ⟨3, "e", "p", none, [⟨"a", "1", 0, "PASSED", "o", "d", 3⟩], 7⟩
        true).raised = false :=
  post_all_without_secret _ true rfl

/-- C10: `post_all` clears the pending list before the POST, so the pending
list is empty afterwards on every path; in particular when the POST raises,
the state change that remains is exactly the cleared batch (with
`total_posted` and everything else unchanged). -/
theorem post_all_clears_pending (rp : ResultsPoster) (postOk : Bool) :
    (post_all rp postOk).poster.package_results = []
    ∧ ((post_all rp postOk).raised = true →
        (post_all rp postOk).poster = { rp with package_results := [] }) := by
  constructor
  · simp only [post_all]
    split
    · split <;> rfl
    · rfl
  · simp only [post_all]
    split
    · split
      · intro h; simp at h
      · intro _; rfl
    · intro h; simp at h

/-- C10 witness: a concrete raising flush (non-success response) still leaves
the pending list cleared and the rest of the state untouched. -/
theorem post_all_clears_pending_witness :
    (post_all ⟨2, "e", "p", some "s", [⟨"a", "1", 0, "PASSED", "o", "d", 3⟩], 5⟩ false).raised
        = true
    ∧ (post_all ⟨2, "e", "p", some "s", [⟨"a", "1", 0, "PASSED", "o", "d", 3⟩], 5⟩
        false).poster = ⟨2, "e", "p", some "s", [], 5⟩ :=
  ⟨rfl, (post_all_clears_pending _ false).2 rfl⟩

/-- Exhaustive shape analysis of a successful `run_package` call: the result
is the cache-hit SKIPPED record, the NO DIST record (when nothing was
selected for download), or a tox-phase record classified from the tox
outcome. -/
theorem run_package_cases (env : RunEnv)
    (tox_env pytest_version name version description : String)
    (r : PackageResult) (eff : JobEffects)
    (h : run_package env tox_env pytest_version name version description
      = Except.ok (r, eff)) :
    (r = ⟨name, version, 0, "SKIPPED", "Skipped", description, env.elapsed⟩
        ∧ eff = ⟨false, false, false⟩)
    ∨ (r = ⟨name, version, 1, "NO DIST", "No source or compatible distribution found",
          description, env.elapsed⟩
        ∧ eff = ⟨true, false, false⟩
        ∧ (download_package env.is_compatible env.releaseUrls).1 = none)
    ∨ (∃ basename extracted,
        (download_package env.is_compatible env.releaseUrls).1 = some basename
        ∧ r = ⟨name, version, toxStatusCode env.toxOutcome,
            if toxStatusCode env.toxOutcome == 0 then "PASSED" else "FAILED",
            toxRawOutput env.toxOutcome ++ "\n\nTime: " ++ env.elapsedStr ++ " seconds",
            description, env.elapsed⟩
        ∧ eff = ⟨true, extracted, true⟩) := by
  simp only [run_package] at h
  split at h
  · rw [Except.ok.injEq, Prod.mk.injEq] at h
    exact Or.inl ⟨h.1.symm, h.2.symm⟩
  · split at h
    · rename_i heq
      rw [Except.ok.injEq, Prod.mk.injEq] at h
      exact Or.inr (Or.inl ⟨h.1.symm, h.2.symm, heq⟩)
    · rename_i basename heq
      split at h
      · exact absurd h (by simp)
      · rename_i target extracted hstep
        rw [Except.ok.injEq, Prod.mk.injEq] at h
        exact Or.inr (Or.inr ⟨basename, extracted, heq, h.1.symm, h.2.symm⟩)

/-- C1: every `PackageResult` produced by `run_package` has `status_code` 0
exactly when its status is `PASSED`, with SKIPPED as the sole exception
(SKIPPED carries code 0 without meaning "ran and passed"); `NO DIST` and
`FAILED` always carry a non-zero `status_code`. -/
theorem run_package_status_pairing (env : RunEnv)
    (tox_env pytest_version name version description : String)
    (r : PackageResult) (eff : JobEffects)
    (h : run_package env tox_env pytest_version name version description
      = Except.ok (r, eff)) :
    (r.status = "SKIPPED" → r.status_code = 0)
    ∧ (r.status ≠ "SKIPPED" → (r.status_code = 0 ↔ r.status = "PASSED"))
    ∧ (r.status = "NO DIST" → r.status_code ≠ 0)
    ∧ (r.status = "FAILED" → r.status_code ≠ 0) := by
  rcases run_package_cases env tox_env pytest_version name version description r eff h with
    ⟨hr, -⟩ | ⟨hr, -, -⟩ | ⟨basename, extracted, -, hr, -⟩ <;> subst hr
  · exact ⟨fun _ => rfl, fun hne => absurd rfl hne,
      fun hs => absurd hs (show ¬(("SKIPPED" : String) = "NO DIST") by decide),
      fun hs => absurd hs (show ¬(("SKIPPED" : String) = "FAILED") by decide)⟩
  · exact ⟨fun hs => absurd hs (show ¬(("NO DIST" : String) = "SKIPPED") by decide),
      fun _ => ⟨fun h0 => absurd h0 (show ¬((1 : Int) = 0) by decide),
        fun hp => absurd hp (show ¬(("NO DIST" : String) = "PASSED") by decide)⟩,
      fun _ => show ¬((1 : Int) = 0) by decide,
      fun hs => absurd hs (show ¬(("NO DIST" : String) = "FAILED") by decide)⟩
  · by_cases hc : toxStatusCode env.toxOutcome = 0 <;> simp [hc]

/-- C1 witness: a concrete passing job pairs code 0 with PASSED. -/
theorem run_package_status_pairing_witness :
    run_package envPassed "e" "p" "n" "v" "d"
        = Except.ok (⟨"n", "v", 0, "PASSED", "out\n\nTime: 1.0 seconds", "d", 1⟩,
            ⟨true, true, true⟩)
    ∧ (((0 : Int) = 0) ↔ (("PASSED" : String) = "PASSED")) :=
  ⟨rfl,
    (run_package_status_pairing envPassed "e" "p" "n" "v" "d"
        ⟨"n", "v", 0, "PASSED", "out\n\nTime: 1.0 seconds", "d", 1⟩ ⟨true, true, true⟩
        rfl).2.1 (by decide)⟩

/-- C2: a package job whose test-execution phase times out or raises does
not propagate the failure: every error `run_package` propagates comes from
`extract`, never from the tox phase; and when the tox phase was reached, a
timeout yields a FAILED result with `status_code` 1 and output
`"tox run timed out"` (plus the elapsed-time footer), while any other
exception yields a FAILED result with `status_code` 1 and output
`"traceback:\n"` followed by the formatted trace (plus the footer). -/
theorem run_package_tox_failure (env : RunEnv)
    (tox_env pytest_version name version description : String) :
    (∀ e, run_package env tox_env pytest_version name version description
        = Except.error e →
      ∃ basename, (download_package env.is_compatible env.releaseUrls).1 = some basename
        ∧ extract basename = Except.error e)
    ∧ (∀ r eff, run_package env tox_env pytest_version name version description
          = Except.ok (r, eff) → eff.tested = true →
        (env.toxOutcome = ToxOutcome.timeout →
          r.status = "FAILED" ∧ r.status_code = 1
            ∧ r.output = "tox run timed out" ++ "\n\nTime: " ++ env.elapsedStr ++ " seconds")
        ∧ ∀ trace, env.toxOutcome = ToxOutcome.exc trace →
          r.status = "FAILED" ∧ r.status_code = 1
            ∧ r.output = "traceback:\n" ++ trace ++ "\n\nTime: " ++ env.elapsedStr
                ++ " seconds") := by
  constructor
  · intro e he
    simp only [run_package] at he
    split at he
    · exact absurd he (by simp)
    · split at he
      · exact absurd he (by simp)
      · rename_i basename heq
        split at he
        · rename_i e' hstep
          rw [Except.error.injEq] at he
          subst he
          refine ⟨basename, heq, ?_⟩
          simp only [wheel_or_extract] at hstep
          split at hstep
          · exact absurd hstep (by simp)
          · cases hext : extract basename with
            | ok t => rw [hext] at hstep; exact absurd hstep (by simp [Except.map])
            | error e'' =>
              rw [hext] at hstep
              simp only [Except.map, Except.error.injEq] at hstep
              rw [hstep]
        · exact absurd he (by simp)
  · intro r eff h ht
    rcases run_package_cases env tox_env pytest_version name version description r eff h with
      ⟨-, he⟩ | ⟨-, he, -⟩ | ⟨basename, extracted, -, hr, -⟩
    · rw [he] at ht; exact absurd ht (by decide)
    · rw [he] at ht; exact absurd ht (by decide)
    · subst hr
      constructor
      · intro htox; rw [htox]; exact ⟨rfl, rfl, rfl⟩
      · intro trace htox; rw [htox]; exact ⟨rfl, rfl, rfl⟩

/-- C2 witness: a concrete job whose tox phase hits the timeout produces the
synthesized FAILED outcome instead of an error. -/
theorem run_package_tox_failure_witness :
    run_package envTimeout "e" "p" "n" "v" "d"
        = Except.ok (⟨"n", "v", 1, "FAILED", "tox run timed out\n\nTime: 300.0 seconds",
            "d", 2⟩, ⟨true, true, true⟩)
    ∧ (("FAILED" : String) = "FAILED" ∧ ((1 : Int) = 1)
        ∧ ("tox run timed out\n\nTime: 300.0 seconds" : String)
            = "tox run timed out\n\nTime: 300.0 seconds") :=
  ⟨rfl,
    ((run_package_tox_failure envTimeout "e" "p" "n" "v" "d").2
        ⟨"n", "v", 1, "FAILED", "tox run timed out\n\nTime: 300.0 seconds", "d", 2⟩
        ⟨true, true, true⟩ rfl rfl).1 rfl⟩

/-- C6: with a storage url configured and the storage service reporting an
existing result (HTTP 200), `run_package` returns the SKIPPED outcome with
code 0 and output `"Skipped"` and performs no fetch, extract or test step;
and an exception during the cache check is swallowed and execution proceeds
exactly as if no storage url were configured (a cache miss). -/
theorem run_package_cache (env : RunEnv)
    (tox_env pytest_version name version description : String) :
    (truthy env.plugincompat_site = true →
      env.cacheCheck = CacheCheck.response 200 →
      run_package env tox_env pytest_version name version description
        = Except.ok (⟨name, version, 0, "SKIPPED", "Skipped", description, env.elapsed⟩,
            ⟨false, false, false⟩))
    ∧ (env.cacheCheck = CacheCheck.exc →
      run_package env tox_env pytest_version name version description
        = run_package { env with plugincompat_site := none }
            tox_env pytest_version name version description) := by
  constructor
  · intro hsite hresp
    simp [run_package, cache_hit, hsite, hresp]
  · intro hexc
    have h1 : cache_hit env = false := by simp [cache_hit, hexc]
    have h2 : cache_hit { env with plugincompat_site := none } = false := by
      simp [cache_hit, truthy]
    simp [run_package, h1, h2]

/-- C6 witness: a concrete job with a cached result skips everything. -/
theorem run_package_cache_witness :
    run_package envCached "e" "p" "n" "v" "d"
        = Except.ok (⟨"n", "v", 0, "SKIPPED", "Skipped", "d", 0⟩, ⟨false, false, false⟩) :=
  (run_package_cache envCached "e" "p" "n" "v" "d").1 rfl rfl

/-- C8: when the fetch step selects nothing, `run_package` returns the
NO DIST outcome with `status_code` 1 and output
`"No source or compatible distribution found"`, carrying the original
description unmodified, and performs no extraction or test step. -/
theorem run_package_no_dist (env : RunEnv)
    (tox_env pytest_version name version description : String)
    (r : PackageResult) (eff : JobEffects)
    (h : run_package env tox_env pytest_version name version description
      = Except.ok (r, eff))
    (hf : eff.fetched = true)
    (hd : (download_package env.is_compatible env.releaseUrls).1 = none) :
    r = ⟨name, version, 1, "NO DIST", "No source or compatible distribution found",
        description, env.elapsed⟩
    ∧ eff = ⟨true, false, false⟩ := by
  rcases run_package_cases env tox_env pytest_version name version description r eff h with
    ⟨-, he⟩ | ⟨hr, he, -⟩ | ⟨basename, extracted, hb, -, -⟩
  · rw [he] at hf; exact absurd hf (by decide)
  · exact ⟨hr, he⟩
  · rw [hd] at hb; exact absurd hb (by simp)

/-- C8 witness: a concrete job with an empty artifact list produces the
NO DIST outcome and stops there. -/
theorem run_package_no_dist_witness :
    run_package envNoDist "e" "p" "n" "v" "d"
        = Except.ok (⟨"n", "v", 1, "NO DIST", "No source or compatible distribution found",
            "d", 3⟩, ⟨true, false, false⟩)
    ∧ (⟨"n", "v", 1, "NO DIST", "No source or compatible distribution found", "d", 3⟩ :
          PackageResult)
        = ⟨"n", "v", 1, "NO DIST", "No source or compatible distribution found", "d", 3⟩ :=
  ⟨rfl,
    (run_package_no_dist envNoDist "e" "p" "n" "v" "d"
        ⟨"n", "v", 1, "NO DIST", "No source or compatible distribution found", "d", 3⟩
        ⟨true, false, false⟩ rfl rfl rfl).1⟩

/-- C4: `maybe_post_batch` ignores SKIPPED outcomes (state unchanged, no
flush), appends every other outcome, and flushes exactly when the pending
size reaches `batch_size`; with `batch_size` 2 and three non-skipped
outcomes, exactly one automatic flush covers the first two and the third is
flushed only by the final `post_all`. -/
theorem maybe_post_batch_spec (rp : ResultsPoster) (postOk : Bool)
    (package_result : PackageResult) :
    (package_result.status = "SKIPPED" →
      maybe_post_batch rp postOk package_result = (rp, none))
    ∧ (package_result.status ≠ "SKIPPED" →
        rp.package_results.length + 1 < rp.batch_size →
        maybe_post_batch rp postOk package_result
          = ({ rp with package_results := rp.package_results ++ [package_result] }, none))
    ∧ (package_result.status ≠ "SKIPPED" →
        rp.batch_size ≤ rp.package_results.length + 1 →
        maybe_post_batch rp postOk package_result
          = ((post_all { rp with package_results := rp.package_results ++ [package_result] }
                postOk).poster,
              some (post_all { rp with package_results := rp.package_results ++ [package_result] }
                postOk)))
    ∧ ((maybe_post_batch scenarioPoster true rA).2 = none
        ∧ ((maybe_post_batch (maybe_post_batch scenarioPoster true rA).1 true rB).2.map
              PostAllResult.netPost)
            = some (some ("sec", [⟨"a", "1", "py38", "6.0", "ok", "oa", "da"⟩,
                ⟨"b", "1", "py38", "6.0", "fail", "ob", "db"⟩]))
        ∧ (maybe_post_batch
              (maybe_post_batch (maybe_post_batch scenarioPoster true rA).1 true rB).1
              true rC).2 = none
        ∧ (post_all (maybe_post_batch
              (maybe_post_batch (maybe_post_batch scenarioPoster true rA).1 true rB).1
              true rC).1 true).netPost
            = some ("sec", [⟨"c", "1", "py38", "6.0", "ok", "oc", "dc"⟩])) := by
  refine ⟨?_, ?_, ?_, rfl, rfl, rfl, rfl⟩
  · intro hs
    simp [maybe_post_batch, hs]
  · intro hs hlt
    simp only [maybe_post_batch]
    rw [if_neg (by simp [hs]),
      if_neg (by simp only [List.length_append, List.length_cons, List.length_nil]; omega)]
  · intro hs hge
    simp only [maybe_post_batch]
    rw [if_neg (by simp [hs]),
      if_pos (by simp only [List.length_append, List.length_cons, List.length_nil]; omega)]

/-- C4 witness: a SKIPPED outcome is ignored by `maybe_post_batch`. -/
theorem maybe_post_batch_spec_witness :
    maybe_post_batch scenarioPoster true rSkipped = (scenarioPoster, none) :=
  (maybe_post_batch_spec scenarioPoster true rSkipped).1 rfl

end Plugincompat
